import Mathlib

/-!
# Telemetry API listener

A shallow embedding of `telemetryApi/listener.go` (Go) and the properties of its
listener lifecycle: address resolution, `Start`, the request handler and `Shutdown`.

The Go methods mutate a `*TelemetryApiListener` and talk to three collaborators that
are outside the file: the logger `l`, the `fasthttp` server and the `queue` package.
The embedding threads one explicit `World` value through every operation. It holds the
listener struct together with the observable trace of the collaborators (log entries,
servers allocated, stop invocations, accept loops in progress). The result of an
external call (`os.LookupEnv`, `Server.Shutdown`, `Server.ListenAndServe`) is an
argument of the operation that consumes it. Operations are sequential: each one runs
to completion, and whether a server is accepting connections at a given moment is a
state of the `fasthttp` library that the world does not hold.
-/

namespace TelemetryApi

/-! ## Values -/

/-- Go `[]byte`. -/
abbrev Bytes := List UInt8

/-- Non-nil Go `error`, identified with its message. A Go `error` that may be nil is an
`Option GoError`, nil being `none`. -/
abbrev GoError := String

/-- Identity of a `*fasthttp.Server` allocated by `Start` (the n-th allocation). -/
abbrev ServerId := Nat

/-- Process environment as seen through `os.LookupEnv`: `none` when the variable is
not set. -/
abbrev Environ := String → Option String

/-- Bytes of a Go string literal (Go strings are UTF-8 byte sequences). -/
def bytesOf (s : String) : Bytes := s.toUTF8.data.toList

/-- Go `os.LookupEnv(key)`: the value and whether the variable is present. -/
def osLookupEnv (env : Environ) (key : String) : String × Bool :=
  match env key with
  | some v => (v, true)
  | none => ("", false)

/-- Go `strings.Index(s, substr)`: the index of the first occurrence of `substr` in
`s`, or `-1` when there is none. -/
def stringsIndex : Bytes → Bytes → Int
  | [], substr => if substr.isPrefixOf [] then 0 else -1
  | c :: t, substr =>
    if substr.isPrefixOf (c :: t) then 0
    else
      let r := stringsIndex t substr
      if r < 0 then -1 else r + 1

/-- Go `strings.Contains(s, substr)`, which is `strings.Index(s, substr) >= 0`. -/
def stringsContains (s substr : Bytes) : Bool :=
  decide (0 ≤ stringsIndex s substr)

/-! ## Log, queue and listener -/

/-- Severity of a logger call: `l.Info` or `l.Error`. -/
inductive LogLevel
  | info
  | error
  deriving DecidableEq, Repr

/-- The argument that follows the message in a logger call. -/
inductive LogArg
  | str (s : String)
  | bytes (b : Bytes)
  | err (e : Option GoError)
  deriving DecidableEq

/-- One call of the logger `l`. -/
structure LogEntry where
  level : LogLevel
  msg : String
  arg : LogArg
  deriving DecidableEq

/-- The `queue.Queue` of the go-datastructures package: its items, oldest first, and
the capacity hint it was created with. -/
structure Queue where
  items : List Bytes
  hint : Nat
  deriving DecidableEq

/-- Go `queue.New(hint)`: an empty queue. -/
def queueNew (hint : Nat) : Queue :=
  { items := [], hint := hint }

/-- The struct `TelemetryApiListener`; a nil `fasthttpServer` is `none`. -/
structure TelemetryApiListener where
  fasthttpServer : Option ServerId
  LogEventsQueue : Queue
  deriving DecidableEq

/-- The listener together with the trace of its collaborators.
* `logged`: the calls of the logger, oldest first;
* `created`: how many `fasthttp.Server` values `Start` has allocated (they are
  `0 .. created - 1`);
* `stops`: the invocations of `Server.Shutdown`, oldest first, each with the server it
  was invoked on and the error it returned;
* `serving`: the goroutines spawned by `Start` that have not finished, each with the
  number of the `Start` that spawned it and the address it listens on. The number
  identifies the goroutine, not the server it serves: the closure reads
  `s.fasthttpServer` when it runs. -/
structure World where
  listener : TelemetryApiListener
  logged : List LogEntry
  created : Nat
  stops : List (ServerId × Option GoError)
  serving : List (ServerId × String)
  deriving DecidableEq

def defaultListenerPort : String := "4323"

def initialQueueSize : Nat := 5

def NewTelemetryApiListener : TelemetryApiListener :=
  { fasthttpServer := none, LogEventsQueue := queueNew initialQueueSize }

/-- The world right after `NewTelemetryApiListener()`: nothing logged, no server
allocated, no stop invoked, no accept loop running. -/
def initWorld : World :=
  { listener := NewTelemetryApiListener, logged := [], created := 0, stops := [],
    serving := [] }

/-- Modelled from the spec: the package-level logger `l` is declared outside
`listener.go`; a call `l.Info(msg, arg)` emits one log entry, recorded here. -/
def lInfo (msg : String) (arg : LogArg) (w : World) : World :=
  { w with logged := w.logged ++ [{ level := .info, msg := msg, arg := arg }] }

/-- Modelled from the spec: the package-level logger `l` is declared outside
`listener.go`; a call `l.Error(msg, arg)` emits one log entry, recorded here. -/
def lError (msg : String) (arg : LogArg) (w : World) : World :=
  { w with logged := w.logged ++ [{ level := .error, msg := msg, arg := arg }] }

/-! ## Operations -/

def listenOnAddress (env : Environ) : String :=
  let (env_aws_local, ok) := osLookupEnv env "AWS_SAM_LOCAL"
  if ok && env_aws_local == "true" then
    ":" ++ defaultListenerPort
  else
    "sandbox:" ++ defaultListenerPort

/-- The method `Shutdown`. `stopErr` is what `s.fasthttpServer.Shutdown()` returns if
it is invoked. The context built by `context.WithTimeout` is discarded by the source
and has no effect. -/
def Shutdown (stopErr : Option GoError) (w : World) : World :=
  match w.listener.fasthttpServer with
  | some srv =>
    let w := { w with stops := w.stops ++ [(srv, stopErr)] }
    match stopErr with
    | some e =>
      lError "[listener:Shutdown] Failed to shutdown http server gracefully:" (.err (some e)) w
    | none => { w with listener := { w.listener with fasthttpServer := none } }
  | none => w

/-- The body of the goroutine spawned by `Start`, from the point where
`ListenAndServe` returns `err`. -/
def goroutine (err : Option GoError) (stopErr : Option GoError) (w : World) : World :=
  match err with
  | some e =>
    Shutdown stopErr
      (lError "[listener:goroutine] Unexpected stop on Http Server:" (.err (some e)) w)
  | none => lInfo "[listener:goroutine] Http Server closed:" (.err none) w

/-- The method `Start`: the returned pair and the world after the call. The spawned
goroutine is recorded in `serving`; what it does once its `ListenAndServe(address)`
call has returned is `goroutine`. Which server that call runs on is read from the
field when the goroutine is scheduled and is not part of the world. -/
def Start (env : Environ) (w : World) : (String × Option GoError) × World :=
  let address := listenOnAddress env
  let w := lInfo "[listener:Start] Starting on address" (.str address) w
  let srv := w.created
  let w := { w with
    listener := { w.listener with fasthttpServer := some srv }
    created := w.created + 1 }
  let w := { w with serving := w.serving ++ [(srv, address)] }
  (("http://" ++ address ++ "/", none), w)

/-- The method `http_handler`; `body` is `ctx.PostBody()`. -/
def http_handler (body : Bytes) (w : World) : World :=
  if stringsContains body (bytesOf "logsDropped") then
    lInfo "Dropped: %v" (.bytes body) w
  else
    w

/-! ## Executions -/

/-- What can happen to a listener: a call of `Start` or `Shutdown`, a request reaching
the handler, or the `ListenAndServe` call of goroutine `srv` (the one spawned by the
`Start` of that number) returning `err`, with `stopErr` the result of the stop
operation the goroutine may invoke. Each action runs to completion before the next
one starts. -/
inductive Action
  | start (env : Environ)
  | shutdown (stopErr : Option GoError)
  | handler (body : Bytes)
  | acceptReturn (srv : ServerId) (err : Option GoError) (stopErr : Option GoError)

def step : Action → World → World
  | .start env, w => (Start env w).2
  | .shutdown stopErr, w => Shutdown stopErr w
  | .handler body, w => http_handler body w
  | .acceptReturn srv err stopErr, w =>
    if w.serving.any (fun p => p.1 == srv) then
      goroutine err stopErr { w with serving := w.serving.filter (fun p => p.1 != srv) }
    else
      w

def run (acts : List Action) (w : World) : World :=
  acts.foldl (fun w a => step a w) w

/-- States reachable from `NewTelemetryApiListener()` by actions that each run to
completion (the source takes no lock, so the methods can also overlap; such
interleavings are outside this relation). -/
def Reachable (w : World) : Prop :=
  ∃ acts : List Action, w = run acts initWorld

/-- A telemetry batch as the host pushes it: one function log event. -/
def sampleBatch : Bytes :=
  bytesOf "[\x7b\"type\":\"function\",\"record\":\"hello\"\x7d]"

/-- An environment in which only `AWS_SAM_LOCAL` is set, to `v`. -/
def samLocalEnv (v : String) : Environ :=
  fun k => if k = "AWS_SAM_LOCAL" then some v else none

/-- An environment with no variable set. -/
def emptyEnv : Environ :=
  fun _ => none

/-- The relation between the server field `f`, the number `c` of servers allocated and
the record `st` of stop invocations that every execution maintains: stops were invoked
on allocated servers only; an absent field means that no server was allocated yet or
that a stop on the latest one returned no error; a present field refers to the latest
server, on which no stop has returned without error. -/
def Inv (f : Option ServerId) (c : Nat) (st : List (ServerId × Option GoError)) : Prop :=
  (∀ p ∈ st, p.1 < c) ∧
  (f = none → c = 0 ∨ (c - 1, none) ∈ st) ∧
  (∀ srv, f = some srv → srv + 1 = c ∧ (srv, none) ∉ st)

/-- The invariant `Inv` read off a world. -/
def WorldInv (w : World) : Prop :=
  Inv w.listener.fasthttpServer w.created w.stops

/-! ## Library facts -/

theorem stringsIndex_nonneg_iff (s substr : Bytes) :
    0 ≤ stringsIndex s substr ↔ substr <:+: s := by
  induction s with
  | nil =>
    cases substr with
    | nil => simp [stringsIndex]
    | cons a l => simp [stringsIndex]
  | cons c t ih =>
    rw [List.infix_cons_iff]
    unfold stringsIndex
    by_cases hp : substr.isPrefixOf (c :: t) = true
    · simp only [hp, if_true, le_refl, true_iff]
      exact Or.inl (List.isPrefixOf_iff_prefix.mp hp)
    · have hp2 : ¬ substr <+: c :: t := fun h => hp (List.isPrefixOf_iff_prefix.mpr h)
      simp only [hp, hp2, false_or]
      by_cases hr : stringsIndex t substr < 0
      · simp only [hr, if_true]
        constructor
        · intro h; exact absurd h (by decide)
        · intro h; have := ih.mpr h; omega
      · simp only [hr, if_false]
        constructor
        · intro _; exact ih.mp (by omega)
        · intro _; omega

theorem stringsContains_iff (s substr : Bytes) :
    stringsContains s substr = true ↔ substr <:+: s := by
  unfold stringsContains
  rw [decide_eq_true_iff]
  exact stringsIndex_nonneg_iff s substr

theorem listenOnAddress_eq (env : Environ) :
    listenOnAddress env =
      if env "AWS_SAM_LOCAL" = some "true" then ":4323" else "sandbox:4323" := by
  unfold listenOnAddress osLookupEnv
  cases h : env "AWS_SAM_LOCAL" with
  | none => simp; rfl
  | some v =>
    by_cases hv : v = "true"
    · subst hv; simp; rfl
    · simp [hv]; rfl

theorem Start_fst (env : Environ) (w : World) :
    (Start env w).1 = ("http://" ++ listenOnAddress env ++ "/", none) := rfl

theorem http_handler_of_not_infix (body : Bytes) (w : World)
    (h : ¬ bytesOf "logsDropped" <:+: body) : http_handler body w = w := by
  have hc : ¬ stringsContains body (bytesOf "logsDropped") = true :=
    fun hc => h ((stringsContains_iff body (bytesOf "logsDropped")).mp hc)
  simp [http_handler, hc]

theorem http_handler_listener (body : Bytes) (w : World) :
    (http_handler body w).listener = w.listener := by
  unfold http_handler
  split <;> rfl

theorem handlers_listener (bodies : List Bytes) (w : World) :
    (bodies.foldl (fun v b => http_handler b v) w).listener = w.listener := by
  induction bodies generalizing w with
  | nil => rfl
  | cons b rest ih =>
    rw [List.foldl_cons, ih (http_handler b w), http_handler_listener]

/-! ## Address resolution and the URL returned by Start -/

/-- C1: `Start` returns the URL `http://:4323/` with a nil error when `AWS_SAM_LOCAL`
is set to `true`, and `http://sandbox:4323/` with a nil error when the variable is
absent or holds any other value; two environments that agree on `AWS_SAM_LOCAL` give
the same result, whatever the state of the listener. -/
theorem Start_url (env : Environ) (w : World) :
    (env "AWS_SAM_LOCAL" = some "true" → (Start env w).1 = ("http://:4323/", none)) ∧
    (env "AWS_SAM_LOCAL" ≠ some "true" →
      (Start env w).1 = ("http://sandbox:4323/", none)) ∧
    (∀ (env2 : Environ) (w2 : World), env2 "AWS_SAM_LOCAL" = env "AWS_SAM_LOCAL" →
      (Start env2 w2).1 = (Start env w).1) := by
  refine ⟨fun h => ?_, fun h => ?_, fun env2 w2 h => ?_⟩
  · rw [Start_fst, listenOnAddress_eq, if_pos h]; rfl
  · rw [Start_fst, listenOnAddress_eq, if_neg h]; rfl
  · rw [Start_fst, Start_fst, listenOnAddress_eq, listenOnAddress_eq, h]

/-- Evaluation of C1 under the local harness (`AWS_SAM_LOCAL=true`), in the managed
runtime (variable absent) and with another value (`AWS_SAM_LOCAL=1`). -/
theorem Start_url_witness :
    (Start (samLocalEnv "true") initWorld).1 = ("http://:4323/", none) ∧
    (Start emptyEnv initWorld).1 = ("http://sandbox:4323/", none) ∧
    (Start (samLocalEnv "1") initWorld).1 = ("http://sandbox:4323/", none) :=
  ⟨(Start_url (samLocalEnv "true") initWorld).1 (by decide),
   (Start_url emptyEnv initWorld).2.1 (by decide),
   (Start_url (samLocalEnv "1") initWorld).2.1 (by decide)⟩

/-! ## The request handler -/

/-- C2: `http_handler` emits exactly one log entry (the dropped-events notice carrying
the body) when the body contains the substring `logsDropped`, and none when it does
not. -/
theorem http_handler_logged (body : Bytes) (w : World) :
    (bytesOf "logsDropped" <:+: body →
      (http_handler body w).logged =
        w.logged ++ [{ level := .info, msg := "Dropped: %v", arg := .bytes body }]) ∧
    (¬ bytesOf "logsDropped" <:+: body → (http_handler body w).logged = w.logged) := by
  constructor
  · intro h
    have hc := (stringsContains_iff body (bytesOf "logsDropped")).mpr h
    simp [http_handler, hc, lInfo]
  · intro h
    have hc : ¬ stringsContains body (bytesOf "logsDropped") = true :=
      fun hc => h ((stringsContains_iff body (bytesOf "logsDropped")).mp hc)
    simp [http_handler, hc]

/-- Evaluation of C2 on a body that carries the marker and on one that does not. -/
theorem http_handler_logged_witness :
    (http_handler (bytesOf "xx logsDropped yy") initWorld).logged.length = 1 ∧
    (http_handler sampleBatch initWorld).logged = [] := by
  constructor
  · rw [(http_handler_logged (bytesOf "xx logsDropped yy") initWorld).1 (by decide)]
    rfl
  · rw [(http_handler_logged sampleBatch initWorld).2 (by decide)]
    rfl

/-- C3: on a non-empty batch of log events pushed to a fresh listener, `http_handler`
leaves `LogEventsQueue` empty (the whole state is unchanged): the events are not put
into the queue, contrary to the comment above the handler. -/
theorem http_handler_sampleBatch_not_queued :
    sampleBatch ≠ [] ∧
    initWorld.listener.LogEventsQueue.items = [] ∧
    (http_handler sampleBatch initWorld).listener.LogEventsQueue.items = [] ∧
    http_handler sampleBatch initWorld = initWorld := by
  have e := http_handler_of_not_infix sampleBatch initWorld (by decide)
  exact ⟨by decide, rfl, by rw [e]; rfl, e⟩

/-- C8: `http_handler` leaves the listener struct unchanged for every state and body
(same queue, same server field), allocates no server and invokes no stop; and an
action that changes the server field is a `Start`, a `Shutdown`, or the failure path
of the goroutine, which changes it by calling `Shutdown`. -/
theorem http_handler_frame (body : Bytes) (w : World) :
    (http_handler body w).listener = w.listener ∧
    (http_handler body w).created = w.created ∧
    (http_handler body w).stops = w.stops ∧
    (http_handler body w).serving = w.serving ∧
    (∀ a : Action, (step a w).listener.fasthttpServer ≠ w.listener.fasthttpServer →
      (∃ env, a = .start env) ∨ (∃ stopErr, a = .shutdown stopErr) ∨
      (∃ srv e stopErr w1, a = .acceptReturn srv (some e) stopErr ∧
        w1.listener = w.listener ∧ step a w = Shutdown stopErr w1)) := by
  have hframe : ∀ (b : Bytes) (v : World), (http_handler b v).listener = v.listener := by
    intro b v
    unfold http_handler
    split <;> rfl
  refine ⟨hframe body w, ?_, ?_, ?_, ?_⟩
  · unfold http_handler; split <;> rfl
  · unfold http_handler; split <;> rfl
  · unfold http_handler; split <;> rfl
  · intro a ha
    cases a with
    | start env => exact Or.inl ⟨env, rfl⟩
    | shutdown stopErr => exact Or.inr (Or.inl ⟨stopErr, rfl⟩)
    | handler b => exact absurd (congrArg TelemetryApiListener.fasthttpServer (hframe b w)) ha
    | acceptReturn srv err stopErr =>
      right; right
      by_cases hs : w.serving.any (fun p => p.1 == srv) = true
      · cases err with
        | none => exact absurd (by simp [step, hs, goroutine, lInfo]) ha
        | some e =>
          refine ⟨srv, e, stopErr,
            lError "[listener:goroutine] Unexpected stop on Http Server:" (.err (some e))
              { w with serving := w.serving.filter (fun p => p.1 != srv) }, rfl, rfl, ?_⟩
          simp only [step, hs, if_true, goroutine]
      · exact absurd (by simp [step, hs]) ha

/-! ## Shutdown -/

/-- C4: `Shutdown` on a listener that owns no server changes nothing at all: the server
field stays absent, the queue, the log and the record of stop invocations are the
same; this covers every listener just built by `NewTelemetryApiListener`. -/
theorem Shutdown_no_server (stopErr : Option GoError) (w : World)
    (h : w.listener.fasthttpServer = none) :
    Shutdown stopErr w = w ∧
    (Shutdown stopErr w).listener.fasthttpServer = none ∧
    (Shutdown stopErr w).listener.LogEventsQueue = w.listener.LogEventsQueue ∧
    (Shutdown stopErr w).stops = w.stops ∧
    (Shutdown stopErr w).logged = w.logged ∧
    (∀ v : World, v.listener = NewTelemetryApiListener → Shutdown stopErr v = v) := by
  have key : ∀ v : World, v.listener.fasthttpServer = none → Shutdown stopErr v = v := by
    intro v hv
    unfold Shutdown
    rw [hv]
  have e := key w h
  refine ⟨e, ?_, ?_, ?_, ?_, ?_⟩
  · rw [e]; exact h
  · rw [e]
  · rw [e]
  · rw [e]
  · intro v hv
    exact key v (by rw [hv]; rfl)

/-- Evaluation of C4 on the freshly built listener, with a stop operation that would
fail if it were invoked. -/
theorem Shutdown_no_server_witness :
    initWorld.listener.fasthttpServer = none ∧
    Shutdown (some "listener closed") initWorld = initWorld :=
  ⟨rfl, (Shutdown_no_server (some "listener closed") initWorld rfl).1⟩

theorem Shutdown_of_none (stopErr : Option GoError) (w : World)
    (h : w.listener.fasthttpServer = none) : Shutdown stopErr w = w := by
  simp only [Shutdown, h]

theorem Shutdown_of_some_ok (w : World) (srv : ServerId)
    (h : w.listener.fasthttpServer = some srv) :
    Shutdown none w =
      { w with
        listener := { w.listener with fasthttpServer := none }
        stops := w.stops ++ [(srv, none)] } := by
  simp only [Shutdown, h]

theorem Shutdown_of_some_err (w : World) (srv : ServerId) (e : GoError)
    (h : w.listener.fasthttpServer = some srv) :
    Shutdown (some e) w =
      { w with
        logged := w.logged ++
          [{ level := .error,
             msg := "[listener:Shutdown] Failed to shutdown http server gracefully:",
             arg := .err (some e) }]
        stops := w.stops ++ [(srv, some e)] } := by
  simp only [Shutdown, h, lError]

theorem Shutdown_stops (stopErr : Option GoError) (w : World) (srv : ServerId)
    (h : w.listener.fasthttpServer = some srv) :
    (Shutdown stopErr w).stops = w.stops ++ [(srv, stopErr)] := by
  cases stopErr with
  | none => rw [Shutdown_of_some_ok w srv h]
  | some e => rw [Shutdown_of_some_err w srv e h]

/-- C6: on a listener that owns server `srv`, `Shutdown` invokes the stop operation
once on `srv`; it sets the server field to absent and logs nothing exactly when the
stop operation returns no error; when the stop operation returns an error it emits one
error log entry and leaves the server field as it was; the queue is unchanged in both
cases. -/
theorem Shutdown_owned (stopErr : Option GoError) (w : World) (srv : ServerId)
    (h : w.listener.fasthttpServer = some srv) :
    (((Shutdown stopErr w).listener.fasthttpServer = none ∧
        (Shutdown stopErr w).logged = w.logged) ↔ stopErr = none) ∧
    (∀ e, stopErr = some e →
      (Shutdown stopErr w).logged = w.logged ++
        [{ level := .error,
           msg := "[listener:Shutdown] Failed to shutdown http server gracefully:",
           arg := .err (some e) }] ∧
      (Shutdown stopErr w).listener.fasthttpServer = some srv) ∧
    (Shutdown stopErr w).listener.LogEventsQueue = w.listener.LogEventsQueue ∧
    (Shutdown stopErr w).stops = w.stops ++ [(srv, stopErr)] := by
  cases stopErr with
  | none =>
    rw [Shutdown_of_some_ok w srv h]
    simp
  | some e =>
    rw [Shutdown_of_some_err w srv e h]
    simp [h]

/-- Evaluation of C6 on a listener that has just been started (it owns server 0), with
a stop operation that fails. -/
theorem Shutdown_owned_witness :
    (Start emptyEnv initWorld).2.listener.fasthttpServer = some 0 ∧
    (Shutdown (some "close failed") (Start emptyEnv initWorld).2).listener.fasthttpServer
      = some 0 ∧
    (Shutdown (some "close failed") (Start emptyEnv initWorld).2).stops
      = [(0, some "close failed")] :=
  ⟨rfl,
   ((Shutdown_owned (some "close failed") (Start emptyEnv initWorld).2 0 rfl).2.1
      "close failed" rfl).2,
   (Shutdown_owned (some "close failed") (Start emptyEnv initWorld).2 0 rfl).2.2.2⟩

/-- C5, as stated, fails: after a `Start`, when the stop operation of the first
`Shutdown` returns an error, the second `Shutdown` is not a no-op: it invokes the stop
operation again and, that one succeeding, clears the server field. -/
theorem Shutdown_twice_not_noop :
    (Shutdown (some "close failed") (Start emptyEnv initWorld).2).listener.fasthttpServer
      = some 0 ∧
    (Shutdown none
      (Shutdown (some "close failed") (Start emptyEnv initWorld).2)).listener.fasthttpServer
      = none ∧
    (Shutdown none (Shutdown (some "close failed") (Start emptyEnv initWorld).2)).stops
      = [(0, some "close failed"), (0, none)] ∧
    Shutdown none (Shutdown (some "close failed") (Start emptyEnv initWorld).2) ≠
      Shutdown (some "close failed") (Start emptyEnv initWorld).2 := by
  refine ⟨rfl, rfl, rfl, fun hEq => ?_⟩
  have h2 := congrArg (fun v : World => v.stops.length) hEq
  exact absurd h2 (by decide)

/-- C5, amended: on a listener that owns server `srv`, as it does after a `Start` and
any number of handler invocations, the second of two successive `Shutdown` calls is a
no-op exactly when the stop operation of the first call returned no error: the first
call has then cleared the server field, one stop was invoked in all and nothing was
logged. When the first stop operation returned the error `e`, the server field still
holds `srv` after the first call and the second call invokes the stop operation again
on `srv`, clearing the field exactly when that second stop returns no error. On a
listener that owns no server both calls are no-ops. -/
theorem Shutdown_twice (w : World) (srv : ServerId) (stopErr1 stopErr2 : Option GoError)
    (h : w.listener.fasthttpServer = some srv) :
    (Shutdown stopErr2 (Shutdown stopErr1 w) = Shutdown stopErr1 w ↔ stopErr1 = none) ∧
    (stopErr1 = none →
      (Shutdown stopErr1 w).listener.fasthttpServer = none ∧
      (Shutdown stopErr2 (Shutdown stopErr1 w)).stops = w.stops ++ [(srv, none)] ∧
      (Shutdown stopErr2 (Shutdown stopErr1 w)).logged = w.logged) ∧
    (∀ e, stopErr1 = some e →
      (Shutdown stopErr1 w).listener.fasthttpServer = some srv ∧
      (Shutdown stopErr2 (Shutdown stopErr1 w)).stops =
        w.stops ++ [(srv, some e), (srv, stopErr2)] ∧
      ((Shutdown stopErr2 (Shutdown stopErr1 w)).listener.fasthttpServer = none ↔
        stopErr2 = none)) ∧
    (∀ (env : Environ) (w0 : World) (bodies : List Bytes),
      (bodies.foldl (fun v b => http_handler b v) (Start env w0).2).listener.fasthttpServer
        = some w0.created) ∧
    (∀ v : World, v.listener.fasthttpServer = none →
      Shutdown stopErr1 v = v ∧ Shutdown stopErr2 (Shutdown stopErr1 v) = v) := by
  have hok : (Shutdown none w).listener.fasthttpServer = none := by
    rw [Shutdown_of_some_ok w srv h]
  have herr : ∀ e, (Shutdown (some e) w).listener.fasthttpServer = some srv := by
    intro e
    rw [Shutdown_of_some_err w srv e h]
    exact h
  have hstops2 : ∀ e, (Shutdown stopErr2 (Shutdown (some e) w)).stops =
      w.stops ++ [(srv, some e), (srv, stopErr2)] := by
    intro e
    rw [Shutdown_stops stopErr2 _ srv (herr e), Shutdown_stops (some e) w srv h,
      List.append_assoc]
    rfl
  refine ⟨?_, ?_, ?_, ?_, ?_⟩
  · cases stopErr1 with
    | none => exact ⟨fun _ => rfl, fun _ => Shutdown_of_none stopErr2 _ hok⟩
    | some e =>
      refine ⟨fun hEq => ?_, fun hne => nomatch hne⟩
      exfalso
      have h2 := congrArg (fun v : World => v.stops.length) hEq
      simp only [hstops2 e, Shutdown_stops (some e) w srv h, List.length_append,
        List.length_cons, List.length_nil] at h2
      omega
  · intro h1
    subst h1
    rw [Shutdown_of_none stopErr2 _ hok]
    refine ⟨hok, Shutdown_stops none w srv h, ?_⟩
    rw [Shutdown_of_some_ok w srv h]
  · intro e h1
    subst h1
    refine ⟨herr e, hstops2 e, ?_⟩
    cases stopErr2 with
    | none =>
      rw [Shutdown_of_some_ok _ srv (herr e)]
      exact ⟨fun _ => rfl, fun _ => rfl⟩
    | some e2 =>
      rw [Shutdown_of_some_err _ srv e2 (herr e)]
      refine ⟨fun hn => ?_, fun hne => nomatch hne⟩
      have hs : (Shutdown (some e) w).listener.fasthttpServer = none := hn
      rw [herr e] at hs
      exact nomatch hs
  · intro env w0 bodies
    rw [handlers_listener]
    rfl
  · intro v hv
    have e1 := Shutdown_of_none stopErr1 v hv
    rw [e1]
    exact ⟨rfl, Shutdown_of_none stopErr2 v hv⟩

/-- Evaluation of C5 (amended) on a listener that was started and then received one
batch: after a clean first stop the second `Shutdown` is a no-op; after a failed first
stop the second `Shutdown` invokes the stop operation on server 0 again. -/
theorem Shutdown_twice_witness :
    (http_handler sampleBatch (Start emptyEnv initWorld).2).listener.fasthttpServer
      = some 0 ∧
    Shutdown none (Shutdown none (http_handler sampleBatch (Start emptyEnv initWorld).2)) =
      Shutdown none (http_handler sampleBatch (Start emptyEnv initWorld).2) ∧
    (Shutdown none (Shutdown (some "close failed")
      (http_handler sampleBatch (Start emptyEnv initWorld).2))).stops =
      [(0, some "close failed"), (0, none)] := by
  have h : (http_handler sampleBatch (Start emptyEnv initWorld).2).listener.fasthttpServer
      = some 0 := by
    rw [http_handler_listener]
    rfl
  have hst : (http_handler sampleBatch (Start emptyEnv initWorld).2).stops = [] := by
    rw [ http_handler_of_not_infix _ _ (by decide)]
    rfl
  refine ⟨h, (Shutdown_twice _ 0 none none h).1.mpr rfl, ?_⟩
  have h3 := ((Shutdown_twice _ 0 (some "close failed") none h).2.2.1
    "close failed" rfl).2.1
  rw [h3, hst]
  rfl

/-! ## The failure path of the goroutine -/

/-- C7, as stated, fails: after a `Start`, the accept loop returns an error and the
stop operation invoked by the goroutine returns an error too; both failures are logged
and the server field still holds server 0. -/
theorem goroutine_failure_keeps_server :
    (step (.acceptReturn 0 (some "bind: address already in use") (some "close failed"))
      (Start emptyEnv initWorld).2).listener.fasthttpServer = some 0 ∧
    ((step (.acceptReturn 0 (some "bind: address already in use") (some "close failed"))
      (Start emptyEnv initWorld).2).logged.map (fun x => x.level)) =
      [.info, .error, .error] :=
  ⟨rfl, rfl⟩

/-- C7, amended: when the accept loop of a started server returns an error while the
listener owns a server, then with no caller action the failure is logged and the
goroutine invokes the stop operation on the owned server; the server field is absent
afterwards exactly when that stop operation returns no error, and otherwise a second
error is logged and the field is left as it was. -/
theorem goroutine_failure (w : World) (srv cur : ServerId) (e : GoError)
    (stopErr : Option GoError)
    (hserving : w.serving.any (fun p => p.1 == srv) = true)
    (hown : w.listener.fasthttpServer = some cur) :
    (step (.acceptReturn srv (some e) stopErr) w).logged =
      w.logged ++
        [{ level := .error, msg := "[listener:goroutine] Unexpected stop on Http Server:",
           arg := .err (some e) }] ++
        (match stopErr with
         | some e2 =>
           [{ level := .error,
              msg := "[listener:Shutdown] Failed to shutdown http server gracefully:",
              arg := .err (some e2) }]
         | none => []) ∧
    (step (.acceptReturn srv (some e) stopErr) w).stops = w.stops ++ [(cur, stopErr)] ∧
    ((step (.acceptReturn srv (some e) stopErr) w).listener.fasthttpServer = none ↔
      stopErr = none) ∧
    (stopErr ≠ none →
      (step (.acceptReturn srv (some e) stopErr) w).listener.fasthttpServer = some cur) := by
  have hstep : step (.acceptReturn srv (some e) stopErr) w =
      Shutdown stopErr
        (lError "[listener:goroutine] Unexpected stop on Http Server:" (.err (some e))
          { w with serving := w.serving.filter (fun p => p.1 != srv) }) := by
    simp only [step, hserving, if_true, goroutine]
  have hown2 : (lError "[listener:goroutine] Unexpected stop on Http Server:"
      (.err (some e))
      { w with serving := w.serving.filter (fun p => p.1 != srv) }).listener.fasthttpServer
      = some cur := hown
  rw [hstep]
  cases stopErr with
  | none =>
    rw [Shutdown_of_some_ok _ _ hown2]
    simp [lError]
  | some e2 =>
    rw [Shutdown_of_some_err _ _ e2 hown2]
    simp [lError, hown]

/-- Evaluation of C7 (amended) right after a `Start`, with a stop operation that
returns no error: the server field is absent afterwards. -/
theorem goroutine_failure_witness :
    (step (.acceptReturn 0 (some "bind: address already in use") none)
      (Start emptyEnv initWorld).2).listener.fasthttpServer = none :=
  (goroutine_failure (Start emptyEnv initWorld).2 0 0 "bind: address already in use" none
    rfl rfl).2.2.1.mpr rfl

/-! ## The server field along executions -/

theorem Inv_start (f : Option ServerId) (c : Nat) (st : List (ServerId × Option GoError))
    (h : Inv f c st) : Inv (some c) (c + 1) st := by
  unfold Inv at h ⊢
  obtain ⟨h1, _, _⟩ := h
  refine ⟨fun p hp => Nat.lt_succ_of_lt (h1 p hp), (fun hn => nomatch hn), ?_⟩
  intro srv hsrv
  cases hsrv
  exact ⟨rfl, fun hmem => Nat.lt_irrefl _ (h1 _ hmem)⟩

theorem Inv_stop_ok (srv c : Nat) (st : List (ServerId × Option GoError))
    (h : Inv (some srv) c st) : Inv none c (st ++ [(srv, none)]) := by
  unfold Inv at h ⊢
  obtain ⟨h1, _, h3⟩ := h
  have hc : srv + 1 = c := (h3 srv rfl).1
  refine ⟨?_, fun _ => Or.inr ?_, fun s hs => nomatch hs⟩
  · intro p hp
    rcases List.mem_append.mp hp with hp | hp
    · exact h1 p hp
    · rw [List.mem_singleton.mp hp]
      show srv < c
      omega
  · have hsub : c - 1 = srv := by omega
    rw [hsub]
    exact List.mem_append.mpr (Or.inr (List.mem_singleton.mpr rfl))

theorem Inv_stop_err (srv c : Nat) (e : GoError) (st : List (ServerId × Option GoError))
    (h : Inv (some srv) c st) : Inv (some srv) c (st ++ [(srv, some e)]) := by
  unfold Inv at h ⊢
  obtain ⟨h1, _, h3⟩ := h
  have hc := h3 srv rfl
  have hlt : srv + 1 = c := hc.1
  refine ⟨?_, (fun hn => nomatch hn), ?_⟩
  · intro p hp
    rcases List.mem_append.mp hp with hp | hp
    · exact h1 p hp
    · rw [List.mem_singleton.mp hp]
      show srv < c
      omega
  · intro s hs
    cases hs
    refine ⟨hlt, fun hmem => ?_⟩
    rcases List.mem_append.mp hmem with hm | hm
    · exact hc.2 hm
    · have hsnd := congrArg Prod.snd (List.mem_singleton.mp hm)
      exact nomatch hsnd

theorem WorldInv_Shutdown (stopErr : Option GoError) (w : World) (h : WorldInv w) :
    WorldInv (Shutdown stopErr w) := by
  cases hf : w.listener.fasthttpServer with
  | none => rw [Shutdown_of_none stopErr w hf]; exact h
  | some srv =>
    unfold WorldInv at h
    rw [hf] at h
    cases stopErr with
    | none =>
      rw [Shutdown_of_some_ok w srv hf]
      exact Inv_stop_ok srv w.created w.stops h
    | some e =>
      rw [Shutdown_of_some_err w srv e hf]
      show Inv w.listener.fasthttpServer w.created (w.stops ++ [(srv, some e)])
      rw [hf]
      exact Inv_stop_err srv w.created e w.stops h

theorem WorldInv_Start (env : Environ) (w : World) (h : WorldInv w) :
    WorldInv (Start env w).2 :=
  Inv_start w.listener.fasthttpServer w.created w.stops h

theorem WorldInv_http_handler (body : Bytes) (w : World) (h : WorldInv w) :
    WorldInv (http_handler body w) := by
  unfold http_handler
  split
  · exact h
  · exact h

theorem WorldInv_step (a : Action) (w : World) (h : WorldInv w) : WorldInv (step a w) := by
  cases a with
  | start env => exact WorldInv_Start env w h
  | shutdown stopErr => exact WorldInv_Shutdown stopErr w h
  | handler body => exact WorldInv_http_handler body w h
  | acceptReturn srv err stopErr =>
    by_cases hs : w.serving.any (fun p => p.1 == srv) = true
    · simp only [step, hs, if_true]
      cases err with
      | none => exact h
      | some e => exact WorldInv_Shutdown stopErr _ h
    · simp only [step, hs]
      exact h

theorem WorldInv_run (acts : List Action) (w : World) (h : WorldInv w) :
    WorldInv (run acts w) := by
  induction acts generalizing w with
  | nil => exact h
  | cons a rest ih => exact ih (step a w) (WorldInv_step a w h)

theorem WorldInv_initWorld : WorldInv initWorld := by
  unfold WorldInv Inv
  exact ⟨(fun _ hp => nomatch hp), (fun _ => Or.inl rfl), (fun _ hs => nomatch hs)⟩

theorem WorldInv_of_Reachable (w : World) (h : Reachable w) : WorldInv w := by
  obtain ⟨acts, rfl⟩ := h
  exact WorldInv_run acts initWorld WorldInv_initWorld

/-! ## Start on a listener that already owns a server -/

/-- C10: for every listener state `Start` stores a newly allocated server in the server
field, whether or not a server was owned (in a reachable state the new server differs
from the one owned before and from every server a stop was invoked on), invokes no stop
operation, leaves the queue unchanged and returns the URL a first `Start` returns; a
`Shutdown` that follows invokes the stop operation once, on the new server. -/
theorem Start_replaces_server (env : Environ) (w : World) :
    (Start env w).2.listener.fasthttpServer = some w.created ∧
    (Start env w).2.created = w.created + 1 ∧
    (Reachable w → ∀ old, w.listener.fasthttpServer = some old → old ≠ w.created) ∧
    (Reachable w → ∀ p ∈ w.stops, p.1 ≠ w.created) ∧
    (Start env w).2.stops = w.stops ∧
    (Start env w).2.listener.LogEventsQueue = w.listener.LogEventsQueue ∧
    (Start env w).1 = (Start env initWorld).1 ∧
    (∀ stopErr, (Shutdown stopErr (Start env w).2).stops =
      w.stops ++ [(w.created, stopErr)]) := by
  refine ⟨rfl, rfl, ?_, ?_, rfl, rfl, rfl, ?_⟩
  · intro hr old hold
    have hinv := WorldInv_of_Reachable w hr
    unfold WorldInv Inv at hinv
    have hc : old + 1 = w.created := (hinv.2.2 old hold).1
    exact hc ▸ Nat.ne_of_lt (Nat.lt_succ_self old)
  · intro hr p hp
    have hinv := WorldInv_of_Reachable w hr
    unfold WorldInv Inv at hinv
    have hc : p.1 < w.created := hinv.1 p hp
    exact Nat.ne_of_lt hc
  · intro stopErr
    exact Shutdown_stops stopErr (Start env w).2 w.created rfl

/-- Evaluation of C10: a second `Start` on a running listener replaces server 0 by
server 1 with no stop invoked, and the `Shutdown` that follows stops server 1 only. -/
theorem Start_replaces_server_witness :
    (Start emptyEnv (Start emptyEnv initWorld).2).2.listener.fasthttpServer = some 1 ∧
    (Start emptyEnv (Start emptyEnv initWorld).2).2.stops = [] ∧
    (Shutdown none (Start emptyEnv (Start emptyEnv initWorld).2).2).stops = [(1, none)] :=
  ⟨(Start_replaces_server emptyEnv (Start emptyEnv initWorld).2).1,
   (Start_replaces_server emptyEnv (Start emptyEnv initWorld).2).2.2.2.2.1,
   (Start_replaces_server emptyEnv (Start emptyEnv initWorld).2).2.2.2.2.2.2.2 none⟩

end TelemetryApi
